import Mathlib

/-
Shallow embedding of the protocol engine in src/SharedVars.js.

JavaScript values that the engine manipulates are modelled by `JsVal`;
machine-level details that the claims do not touch (Buffers, the msgpack
codec, the UDP socket) are kept opaque.  Each definition is annotated with
the source lines it translates.
-/

namespace SharedVarsModel

/-- JsVal models the JavaScript values flowing through the engine: strings,
numbers (with NaN kept separate because `typeof NaN === "number"` but
`NaN !== NaN`), `undefined`, function values, and the `{address, port}`
records produced by `parseRinfo`. -/
inductive JsVal where
  | undef
  | nan
  | num (n : Int)
  | str (s : List Char)
  | fn
  | obj (address : JsVal) (port : JsVal)
deriving DecidableEq, Repr

/-- jsStrictEq models JavaScript strict equality on the primitive values the
engine compares (`===` in `rinfoEqual`, line 343).  `NaN === NaN` is false;
object and function comparison is reference identity, which two separately
produced values never share, so those cases are `false`. -/
def jsStrictEq : JsVal → JsVal → Bool
  | JsVal.num a, JsVal.num b => a == b
  | JsVal.str a, JsVal.str b => a == b
  | JsVal.undef, JsVal.undef => true
  | _, _ => false

/-- jsTypeofNumber models `typeof v === "number"`; note `typeof NaN` is
`"number"` in JavaScript. -/
def jsTypeofNumber : JsVal → Bool
  | JsVal.num _ => true
  | JsVal.nan => true
  | _ => false

/-- RinfoV is a remote-endpoint record `{address, port}` as stored by the
engine (the fields are arbitrary JsVals because `parseRinfo` can put a
number in `address` and a string in `port`). -/
structure RinfoV where
  address : JsVal
  port : JsVal
deriving DecidableEq, Repr

/-- rinfoEqual translates lines 342-344:
`(a.address === b.address && a.port === b.port)`. -/
def rinfoEqual (a b : RinfoV) : Bool :=
  jsStrictEq a.address b.address && jsStrictEq a.port b.port

/-- JsException models the exceptions the engine can raise: a TypeError from
a property read on `undefined`, an `Error(msg)` value, and a marker for a
loop that never terminates (only producible from states the engine cannot
reach; see `getNextRidLoop`). -/
inductive JsException where
  | typeError
  | error (msg : List Char)
  | nonTermination
deriving DecidableEq, Repr

/-- lastIndexOfAux scans a string and returns the index of the last
occurrence of `c`, offsetting indices by `i`. -/
def lastIndexOfAux : List Char → Char → Nat → Option Nat
  | [], _, _ => none
  | x :: xs, c, i =>
    match lastIndexOfAux xs c (i + 1) with
    | some j => some j
    | none => if x = c then some i else none

/-- lastIndexOf models `String.prototype.lastIndexOf` as used on line 335:
the index of the last occurrence of `c`, or `-1` when absent. -/
def lastIndexOf (s : List Char) (c : Char) : Int :=
  match lastIndexOfAux s c 0 with
  | some i => (i : Int)
  | none => -1

/-- jsSubstrFrom models `s.substr(start)` for a non-negative `start`
(line 337 uses `address.substr(i + 1)` with `i ≥ -1`). -/
def jsSubstrFrom (s : List Char) (start : Int) : List Char :=
  s.drop start.toNat

/-- jsSubstrTake models `s.substr(0, len)` (line 338); a negative length
yields the empty string, as in JavaScript. -/
def jsSubstrTake (s : List Char) (len : Int) : List Char :=
  s.take len.toNat

/-- digitsToNat folds a list of decimal digit characters into a number. -/
def digitsToNat (ds : List Char) : Nat :=
  ds.foldl (fun acc c => acc * 10 + (c.toNat - 48)) 0

/-- jsParseIntFrom reads the longest decimal-digit prefix of `t`; NaN when
that prefix is empty, mirroring `parseInt(t, 10)` after sign handling. -/
def jsParseIntFrom (t : List Char) (neg : Bool) : JsVal :=
  let ds := t.takeWhile Char.isDigit
  if ds.isEmpty then JsVal.nan
  else JsVal.num ((if neg then (-1 : Int) else 1) * (digitsToNat ds : Int))

/-- jsParseInt models `parseInt(s, 10)` (line 337): skip leading whitespace,
handle an optional sign, read the digit prefix, NaN when there are no
digits. -/
def jsParseInt (s : List Char) : JsVal :=
  let t := s.dropWhile Char.isWhitespace
  match t with
  | '-' :: rest => jsParseIntFrom rest true
  | '+' :: rest => jsParseIntFrom rest false
  | _ => jsParseIntFrom t false

/-- parseRinfo translates lines 331-340.  A non-string `address` is returned
unchanged; with a numeric `port` the pair is wrapped as `{address, port}`;
otherwise the string is split at its last colon, and — as the source is
written — the parsed number lands in `address` and the leading text in
`port`. -/
def parseRinfo (address port : JsVal) : JsVal :=
  match address with
  | JsVal.str s =>
    if jsTypeofNumber port then JsVal.obj (JsVal.str s) port
    else
      let i := lastIndexOf s ':'
      JsVal.obj (jsParseInt (jsSubstrFrom s (i + 1))) (JsVal.str (jsSubstrTake s i))
  | a => a

/-- Packet is a datagram handed to the underlying socket: the encoded
message (kept as the pre-encoding value list, the codec being opaque and
injective for our purposes) plus the destination taken from `rinfo.port` /
`rinfo.address` on line 143. -/
structure Packet where
  payload : List JsVal
  destAddress : JsVal
  destPort : JsVal
deriving DecidableEq, Repr

/-- sendMethod translates `send` (lines 139-145).  The destination record is
`parseRinfo(address, port)`; line 143 then reads `rinfo.port` and
`rinfo.address`, which throws a TypeError when `rinfo` is `undefined`
(property reads on other primitives yield `undefined` without throwing). -/
def sendMethod (data : List JsVal) (address port : JsVal) : Except JsException Packet :=
  match parseRinfo address port with
  | JsVal.obj a p => Except.ok ⟨data, a, p⟩
  | JsVal.undef => Except.error JsException.typeError
  | _ => Except.ok ⟨data, JsVal.undef, JsVal.undef⟩

/-- ridMax is `RID_MAX = 0xffff` (line 14). -/
def ridMax : Nat := 65535

/-- RidEntry is the object stored in `this._rids[rid]` by `_genRid`
(lines 282-289): the origin endpoint, the response callback (modelled by
whether its return value is `=== true`, the only thing `_getRidCallback`
inspects), and the live timeout timer.  Crucially the source stores NO
`ttl` field, so the `ttl` reads in `_getNextRid` see `undefined`; the field
is carried as an `Option` that `_genRid` always leaves at `none`. -/
structure RidEntry where
  rinfo : RinfoV
  cb : Option JsException → List JsVal → Bool
  ttl : Option Nat
  timerActive : Bool

/-- RidState is the allocator state: the `_rids` table plus `_nextRid`
(lines 25-26).  `Math.random() * RID_MAX` can return any offset in the
space, zero included; runs are modelled from a concrete integer offset. -/
structure RidState where
  rids : Nat → Option RidEntry
  nextRid : Nat

/-- ridLiveNow translates the loop guard on line 315,
`this._rids[rid] && this._rids[rid].ttl > now`: a missing entry is falsy,
and an entry without a `ttl` field makes the comparison
`undefined > now`, which is false in JavaScript. -/
def ridLiveNow (e : Option RidEntry) (now : Nat) : Bool :=
  match e with
  | none => false
  | some entry =>
    match entry.ttl with
    | none => false
    | some t => decide (now < t)

/-- bumpRid is `this._nextRid++` followed by the wraparound check
`if (this._nextRid > RID_MAX) this._nextRid = 0` (lines 312-313 and
316-317), returning the new `_nextRid`. -/
def bumpRid (n : Nat) : Nat :=
  if n + 1 > ridMax then 0 else n + 1

/-- noRidsLeftMsg is the `Error` message thrown on line 319. -/
def noRidsLeftMsg : List Char := ("No new request ids left").toList

/-- getNextRidLoop is the scan loop of `_getNextRid` (lines 315-320): while
the current rid is live, advance `_nextRid` with wraparound and throw once
the scan returns to `start`.  The loop body only runs when `ridLiveNow` is
true, which no state the engine actually builds can produce (no entry ever
has a `ttl`), so the fuel bound exists purely to make the translation
total; `nonTermination` stands for a JavaScript loop that never exits. -/
def getNextRidLoop (rids : Nat → Option RidEntry) (now start : Nat) :
    Nat → Nat → Nat → Except JsException (Nat × Nat)
  | 0, rid, nextRid =>
    if ridLiveNow (rids rid) now then Except.error JsException.nonTermination
    else Except.ok (rid, nextRid)
  | fuel + 1, rid, nextRid =>
    if ridLiveNow (rids rid) now then
      let rid2 := nextRid
      let next2 := bumpRid nextRid
      if rid2 = start then Except.error (JsException.error noRidsLeftMsg)
      else getNextRidLoop rids now start fuel rid2 next2
    else Except.ok (rid, nextRid)

/-- getNextRid translates `_getNextRid` (lines 308-323): remember `start`,
take the current `_nextRid` as the candidate rid, advance with wraparound,
then run the scan loop; returns the rid together with the new `_nextRid`. -/
def getNextRid (s : RidState) (now : Nat) : Except JsException (Nat × Nat) :=
  getNextRidLoop s.rids now s.nextRid (ridMax + 2) s.nextRid (bumpRid s.nextRid)

/-- genRid translates `_genRid` (lines 279-292): allocate a rid and store
`{rinfo, callback, timeout}` under it — overwriting whatever entry was
there — with no `ttl` field and a freshly started timer. -/
def genRid (s : RidState) (rinfo : RinfoV) (cb : Option JsException → List JsVal → Bool)
    (now : Nat) : Except JsException (Nat × RidState) :=
  match getNextRid s now with
  | Except.error e => Except.error e
  | Except.ok (rid, nx) =>
    Except.ok (rid, ⟨fun k => if k = rid then some ⟨rinfo, cb, none, true⟩ else s.rids k, nx⟩)

/-- ResolveOutcome is the observable effect of delivering a response or
error for a rid: the table afterwards, whether the stored callback ran (and
whether its return was `=== true`), and whether the deadline timer was
cleared. -/
structure ResolveOutcome where
  rids : Nat → Option RidEntry
  invoked : Option Bool
  timerCleared : Bool

/-- getRidCallbackResolve translates `_getRidCallback` (lines 294-306)
combined with the immediate call of the wrapper it returns (as done by
`_handleResponse` / `_handleErrorResponse`): a missing entry or an origin
that fails `rinfoEqual` returns no wrapper, so nothing happens; otherwise
the callback runs, and unless it returned `=== true` with no error, the
timer is cleared and the entry deleted. -/
def getRidCallbackResolve (rids : Nat → Option RidEntry) (rid : Nat) (rinfo : RinfoV)
    (err : Option JsException) (data : List JsVal) : ResolveOutcome :=
  match rids rid with
  | none => ⟨rids, none, false⟩
  | some obj =>
    if rinfoEqual obj.rinfo rinfo then
      let ret := obj.cb err data
      if ret && err.isNone then ⟨rids, some ret, false⟩
      else ⟨fun k => if k = rid then none else rids k, some ret, true⟩
    else ⟨rids, none, false⟩

/-- ridInit is the allocator state of a fresh engine whose random starting
offset came out as 0 (`Math.random()` can return exactly 0). -/
def ridInit : RidState := ⟨fun _ => none, 0⟩

/-- cb0 is a stand-in response callback whose return value is never the
continue sentinel, matching the callbacks the engine registers during
fan-out (they return the result of `async`'s `callback()`, `undefined`). -/
def cb0 : Option JsException → List JsVal → Bool := fun _ _ => false

/-- r0c is a fixed peer endpoint used for concrete allocation runs. -/
def r0c : RinfoV := ⟨JsVal.str (("127.0.0.1").toList), JsVal.num 4000⟩

/-- allocIter runs `n` consecutive `_genRid` calls against the same peer
with no interleaved resolution, starting from a fresh engine (the error
branch is unreachable and merely keeps the function total). -/
def allocIter : Nat → RidState
  | 0 => ridInit
  | n + 1 =>
    match genRid (allocIter n) r0c cb0 0 with
    | Except.ok (_, s) => s
    | Except.error _ => allocIter n

/-- jsToChars models JavaScript string conversion as used by the template
literal on lines 174 and 185; only the string and number branches are
exercised by the engine, the rest are stand-ins for JavaScript's default
conversions. -/
def jsToChars : JsVal → List Char
  | JsVal.str s => s
  | JsVal.num n => (toString n).toList
  | JsVal.nan => ("NaN").toList
  | JsVal.undef => ("undefined").toList
  | JsVal.fn => ("function").toList
  | JsVal.obj _ _ => ("[object Object]").toList

/-- peersMapKey is the registry key `` `${rinfo.address}:${rinfo.port}` ``
(lines 174 and 185). -/
def peersMapKey (r : RinfoV) : List Char :=
  jsToChars r.address ++ ':' :: jsToChars r.port

/-- addPeer translates `_addPeer` (lines 173-182): insert keyed by
address:port, idempotently (the stored value is the key's peer record;
membership of the key is the observable part). -/
def addPeer (pm : List (List Char)) (r : RinfoV) : List (List Char) :=
  let key := peersMapKey r
  if pm.contains key then pm else pm ++ [key]

/-- removePeer translates `_removePeer` (lines 184-190): delete the key if
present. -/
def removePeer (pm : List (List Char)) (r : RinfoV) : List (List Char) :=
  let key := peersMapKey r
  if pm.contains key then pm.erase key else pm

/-- ConnectResolved is the observable effect of the callback `connect`
registers with `_genRid` (lines 45-53) once the PING resolves: the peer
registry afterwards, and the arguments handed to the caller's callback —
note line 52 passes a literal `null` as the error argument. -/
structure ConnectResolved where
  peersMap : List (List Char)
  userCb : Option (Option JsException × List JsVal × RinfoV)

/-- connectRidCb translates the closure on lines 45-53: on error remove the
peer, otherwise add it, then — in both cases — invoke the caller's callback
(when given) as `callback(null, data, rinfo)`. -/
def connectRidCb (pm : List (List Char)) (rinfo : RinfoV) (hasCb : Bool)
    (err : Option JsException) (data : List JsVal) : ConnectResolved :=
  let pm2 := if err.isSome then removePeer pm rinfo else addPeer pm rinfo
  ⟨pm2, if hasCb then some (none, data, rinfo) else none⟩

/-- connect translates the synchronous part of `connect` (lines 42-56) for a
string address and numeric port: parse the endpoint, allocate a rid, and
send `[MSG_TYPE_PING, rid]` to it (the final branch is unreachable because
`parseRinfo` on a string/number pair always builds an object). -/
def connect (s : RidState) (addr : List Char) (port : Int) (now : Nat) :
    Except JsException (Packet × RidState) :=
  match parseRinfo (JsVal.str addr) (JsVal.num port) with
  | JsVal.obj a p =>
    match genRid s ⟨a, p⟩ cb0 now with
    | Except.error e => Except.error e
    | Except.ok (rid, s1) =>
      match sendMethod [JsVal.num 1, JsVal.num (rid : Int)] (JsVal.obj a p) JsVal.undef with
      | Except.error e => Except.error e
      | Except.ok pkt => Except.ok (pkt, s1)
  | _ => Except.error JsException.typeError

/-- Decoded is a value produced by the codec: either an array (the only
shape `_handleMessage` accepts) or some other JavaScript value. -/
inductive Decoded where
  | arr (xs : List JsVal)
  | prim (v : JsVal)

/-- Dispatch records which branch `_handleMessage` (lines 192-206) routed an
inbound message to. -/
inductive Dispatch where
  | response (data : List JsVal) (rid : JsVal) (rinfo : RinfoV)
  | request (data : List JsVal) (ty : Int) (rid : JsVal) (rinfo : RinfoV)
  | errorResponse (data : List JsVal) (ty : Int) (rid : JsVal) (rinfo : RinfoV)

/-- handleMessage translates `_handleMessage` (lines 192-206): silently drop
non-arrays, arrays shorter than 2, and non-numeric type/rid; classify the
rest by the sign of `type`.  A NaN type is `typeof "number"` yet fails all
three comparisons against 0, so it also falls through with no dispatch. -/
def handleMessage (data : Decoded) (rinfo : RinfoV) : Option Dispatch :=
  match data with
  | Decoded.arr xs =>
    match xs with
    | t :: rid :: rest =>
      if jsTypeofNumber t && jsTypeofNumber rid then
        match t with
        | JsVal.num ty =>
          if ty = 0 then some (Dispatch.response rest rid rinfo)
          else if ty > 0 then some (Dispatch.request rest ty rid rinfo)
          else some (Dispatch.errorResponse rest ty rid rinfo)
        | _ => none
      else none
    | _ => none
  | Decoded.prim _ => none

/-- RequestHandlerTag names the handlers present in `_requestTypesMap`. -/
inductive RequestHandlerTag where
  | ping
deriving DecidableEq, Repr

/-- requestTypesMap translates the constructor's handler table
(lines 27-29): the map is built with the single entry
`[MSG_TYPE_PING]: this._pingHandler`; no GET (2) or PUBLISH (3) handler is
ever registered. -/
def requestTypesMap (ty : Int) : Option RequestHandlerTag :=
  if ty = 1 then some RequestHandlerTag.ping else none

/-- unknownTypeMsg is the error payload sent on line 210. -/
def unknownTypeMsg : List Char := ("Unknown request type").toList

/-- handleRequest translates `_handleRequest` (lines 208-216) together with
`_pingHandler` (lines 235-237), returning the list of messages sent with
their destinations: an unregistered type is answered with
`[MSG_TYPE_ERROR_UNKNOWN, rid, 'Unknown request type']`, a PING with
`[MSG_TYPE_RESPONSE, rid]`. -/
def handleRequest (ty : Int) (rid : JsVal) (rinfo : RinfoV) :
    List (List JsVal × RinfoV) :=
  match requestTypesMap ty with
  | none => [([JsVal.num (-1), rid, JsVal.str unknownTypeMsg], rinfo)]
  | some RequestHandlerTag.ping => [([JsVal.num 0, rid], rinfo)]

/-- selfVarName is the identifier the socket message handler tries to read
on line 265. -/
def selfVarName : String := "self"

/-- messageEventName is the event emitted on line 270. -/
def messageEventName : String := "message"

/-- messageHandlerScopeNames lists every identifier lexically visible inside
the `socket.on('message', ...)` arrow function (lines 261-272): its own
parameters and locals, the `_initSocket` parameter, the module-level
bindings of src/SharedVars.js, the CommonJS wrapper names, and the Node.js
globals.  Node.js defines no global `self` (that is a browser binding), so
`self` appears nowhere in this chain and reading it throws a
ReferenceError. -/
def messageHandlerScopeNames : List String :=
  ["buf", "rinfo", "data", "err", "this", "socket",
   "EventEmitter", "dgram", "async", "MsgPack", "SharedVar", "Signature",
   "MSG_TYPE_RESPONSE", "MSG_TYPE_PING", "MSG_TYPE_GET", "MSG_TYPE_PUBLISH",
   "MSG_TYPE_ERROR_UNKNOWN", "RID_MAX", "RID_TIMEOUT", "BUFFER_ENCODING",
   "PUBLIC_ASYNC_LIMIT", "SharedVars", "parseRinfo", "rinfoEqual",
   "module", "exports", "require", "__dirname", "__filename",
   "global", "globalThis", "process", "console", "Buffer",
   "setTimeout", "clearTimeout", "setInterval", "clearInterval",
   "setImmediate", "clearImmediate", "queueMicrotask",
   "Error", "TypeError", "RangeError", "Array", "Object", "Function",
   "String", "Number", "Boolean", "Math", "Date", "JSON", "Promise",
   "Symbol", "Map", "Set", "WeakMap", "WeakSet", "Reflect", "Proxy",
   "parseInt", "parseFloat", "isNaN", "isFinite", "NaN", "Infinity",
   "undefined", "URL", "URLSearchParams", "TextEncoder", "TextDecoder"]

/-- decodeMethod models the `decode` method (lines 162-164): its body calls
`this._parser.decode.apply(...)` but contains no `return`, so the method
always evaluates to `undefined` regardless of the buffer. -/
def decodeMethod (_buf : List Nat) : Decoded := Decoded.prim JsVal.undef

/-- MessageHandlerOutcome is the observable effect of one run of the
socket `message` handler: whether the catch block swallowed a
ReferenceError and returned, what `this.emit('message', ...)` published,
and what `_handleMessage` dispatched. -/
structure MessageHandlerOutcome where
  droppedByCatch : Bool
  emitted : List (String × Decoded)
  dispatched : Option Dispatch

/-- socketMessageHandlerIn translates the handler on lines 261-272 over an
explicit scope: evaluating `self.decode(buf)` first resolves the identifier
`self`; when it is not in scope the ReferenceError is caught by the
try/catch and the handler returns.  Were some scope to bind `self` to this
instance, `decode` still returns `undefined`, which `_handleMessage`
silently drops. -/
def socketMessageHandlerIn (scope : List String) (buf : List Nat) (rinfo : RinfoV) :
    MessageHandlerOutcome :=
  if scope.contains selfVarName then
    let data := decodeMethod buf
    ⟨false, [(messageEventName, data)], handleMessage data rinfo⟩
  else ⟨true, [], none⟩

/-- socketMessageHandler is the handler as installed by `_initSocket`, run
in its actual scope chain. -/
def socketMessageHandler (buf : List Nat) (rinfo : RinfoV) : MessageHandlerOutcome :=
  socketMessageHandlerIn messageHandlerScopeNames buf rinfo

/-- lookupIterStep translates one iteration of the `async.eachLimit` body in
`lookup` (lines 75-90): register the response callback via `_genRid(peer,
...)` (a callback that returns `callback()`'s `undefined`, never the
continue sentinel), then execute line 90 —
`this.send([MSG_TYPE_GET, rid, publicKey])` — which passes NO destination
argument, so `send` receives `address = port = undefined`. -/
def lookupIterStep (s : RidState) (peer : RinfoV) (publicKey : JsVal) (now : Nat) :
    Except JsException (Packet × RidState) :=
  match genRid s peer cb0 now with
  | Except.error e => Except.error e
  | Except.ok (rid, s1) =>
    match sendMethod [JsVal.num 2, JsVal.num (rid : Int), publicKey] JsVal.undef JsVal.undef with
    | Except.error e => Except.error e
    | Except.ok pkt => Except.ok (pkt, s1)

/-- SignedVarV is the externally owned SharedVar value `publish` consumes:
its public key (a byte buffer) and its signature (opaque here). -/
structure SignedVarV where
  publicKey : List Nat
  signature : JsVal

/-- hexDigit renders one hex digit as Buffer.toString('hex') does
(lowercase). -/
def hexDigit (n : Nat) : Char :=
  if n < 10 then Char.ofNat (48 + n) else Char.ofNat (87 + n)

/-- toHex models `publicKey.toString(BUFFER_ENCODING)` with
`BUFFER_ENCODING = 'hex'` (lines 17, 67, 102, 127). -/
def toHex (bs : List Nat) : List Char :=
  bs.flatMap (fun b => [hexDigit (b / 16 % 16), hexDigit (b % 16)])

/-- PublishOutcome is the observable effect of a `publish` call that
returned normally: the local value store afterwards, the datagrams sent,
the arguments the caller's callback got (`none` when it was never invoked),
and the events emitted on the instance — the body of `publish`
(lines 101-124) contains no `emit` call, so that list is built empty. -/
structure PublishOutcome where
  varsMap : List Char → Option SignedVarV
  sends : List Packet
  cbArgs : Option (Option JsException × JsVal)
  emits : List (List Char × JsVal)

/-- publishFanout translates the `async.eachLimit` body of `publish`
(lines 110-116) over the narrowed peer list: for each peer, register the
acknowledgement-counting callback via `_genRid(peer, ...)` (it returns
`callback()`'s `undefined`), then run line 116 —
`this.send([MSG_TYPE_PUBLISH, rid, sharedVar.signature])` — again with no
destination argument.  An exception in the iterator propagates out of
`eachLimit`; the error count stays 0 because the rid callbacks that would
increment it only run on later response/timeout events. -/
def publishFanout : List RinfoV → RidState → JsVal → Nat →
    Except JsException (List Packet × Nat × RidState)
  | [], s, _, _ => Except.ok ([], 0, s)
  | peer :: rest, s, sig, now =>
    match genRid s peer cb0 now with
    | Except.error e => Except.error e
    | Except.ok (rid, s1) =>
      match sendMethod [JsVal.num 3, JsVal.num (rid : Int), sig] JsVal.undef JsVal.undef with
      | Except.error e => Except.error e
      | Except.ok pkt =>
        match publishFanout rest s1 sig now with
        | Except.error e => Except.error e
        | Except.ok (pkts, errs, s2) => Except.ok (pkt :: pkts, errs, s2)

/-- publish translates `publish` (lines 101-124): store the value under the
hex key; when `this._peersVarsMap[key]` is undefined, `return this` — no
send, and the caller's callback is never touched; otherwise fan the PUBLISH
out to the recorded peers and, when the fan-out completes, invoke the
callback (when given) with `(null, peers.length - errors)`. -/
def publish (vm : List Char → Option SignedVarV)
    (pvm : List Char → Option (List RinfoV)) (s : RidState)
    (sv : SignedVarV) (hasCb : Bool) (now : Nat) :
    Except JsException PublishOutcome :=
  let key := toHex sv.publicKey
  let vm2 := fun k => if k = key then some sv else vm k
  match pvm key with
  | none => Except.ok ⟨vm2, [], none, []⟩
  | some peers =>
    match publishFanout peers s sv.signature now with
    | Except.error e => Except.error e
    | Except.ok (pkts, errs, _) =>
      Except.ok ⟨vm2, pkts,
        if hasCb then some (none, JsVal.num ((peers.length : Int) - (errs : Int))) else none,
        []⟩

/-- onPublish translates `onPublish` (lines 126-129): register an
EventEmitter listener (identified by a handle) under the hex key of the
public key. -/
def onPublish (listeners : List (List Char × Nat)) (publicKey : List Nat)
    (lid : Nat) : List (List Char × Nat) :=
  listeners ++ [(toHex publicKey, lid)]

/-- emitInvocations models `EventEmitter.emit`: every listener registered
under the event name is invoked with the argument, in registration
order. -/
def emitInvocations (listeners : List (List Char × Nat)) (ev : List Char)
    (arg : JsVal) : List (Nat × JsVal) :=
  (listeners.filter (fun p => p.1 == ev)).map (fun p => (p.2, arg))

/-- publishListenerInvocations collects every listener invocation a
`publish` call produces: the events the call emits, dispatched through the
registered listeners (none when the call threw before returning). -/
def publishListenerInvocations (listeners : List (List Char × Nat))
    (vm : List Char → Option SignedVarV) (pvm : List Char → Option (List RinfoV))
    (s : RidState) (sv : SignedVarV) (hasCb : Bool) (now : Nat) :
    List (Nat × JsVal) :=
  match publish vm pvm s sv hasCb now with
  | Except.error _ => []
  | Except.ok o => o.emits.flatMap (fun e => emitInvocations listeners e.1 e.2)

/-- jsStrictEq_imp_eq shows strict equality only succeeds on equal modelled
values (the converse fails: `NaN === NaN` is false). -/
theorem jsStrictEq_imp_eq {x y : JsVal} (h : jsStrictEq x y = true) : x = y := by
  cases x <;> cases y <;> simp_all [jsStrictEq]

/-- rinfoEqual_imp_eq shows `rinfoEqual` only succeeds on equal endpoint
records. -/
theorem rinfoEqual_imp_eq {a b : RinfoV} (h : rinfoEqual a b = true) : a = b := by
  obtain ⟨aa, ap⟩ := a
  obtain ⟨ba, bp⟩ := b
  unfold rinfoEqual at h
  rw [Bool.and_eq_true] at h
  have h1 := jsStrictEq_imp_eq h.1
  have h2 := jsStrictEq_imp_eq h.2
  simp_all

/-- getNextRidLoop_not_live shows the scan loop exits at once whenever its
guard is false at the entry rid. -/
theorem getNextRidLoop_not_live (rids : Nat → Option RidEntry) (now start fuel rid nextRid : Nat)
    (h : ridLiveNow (rids rid) now = false) :
    getNextRidLoop rids now start fuel rid nextRid = Except.ok (rid, nextRid) := by
  cases fuel <;> simp [getNextRidLoop, h]

/-- genRid_of_not_live evaluates `_genRid` in any state whose current
`_nextRid` slot fails the (defective) liveness guard: the rid handed out is
exactly `_nextRid`, and the new entry is stored with no `ttl`. -/
theorem genRid_of_not_live (s : RidState) (rinfo : RinfoV)
    (cb : Option JsException → List JsVal → Bool) (now : Nat)
    (h : ridLiveNow (s.rids s.nextRid) now = false) :
    genRid s rinfo cb now =
      Except.ok (s.nextRid,
        ⟨fun k => if k = s.nextRid then some ⟨rinfo, cb, none, true⟩ else s.rids k,
         bumpRid s.nextRid⟩) := by
  unfold genRid getNextRid
  rw [getNextRidLoop_not_live _ _ _ _ _ _ h]

/-- lastIndexOfAux_eq_none shows the scan yields nothing when the character
is absent. -/
theorem lastIndexOfAux_eq_none (ys : List Char) (c : Char) (h : c ∉ ys) :
    ∀ i, lastIndexOfAux ys c i = none := by
  induction ys with
  | nil => intro i; rfl
  | cons y ys ih =>
    intro i
    have hy : ¬ (y = c) := by
      intro he
      exact h (he ▸ List.mem_cons_self y ys)
    have h2 : c ∉ ys := fun hm => h (List.mem_cons_of_mem _ hm)
    simp [lastIndexOfAux, ih h2, hy]

/-- lastIndexOfAux_append locates the last occurrence of `c` when the tail
after it is `c`-free. -/
theorem lastIndexOfAux_append (xs ys : List Char) (c : Char) (h : c ∉ ys) :
    ∀ i, lastIndexOfAux (xs ++ c :: ys) c i = some (i + xs.length) := by
  induction xs with
  | nil =>
    intro i
    simp [lastIndexOfAux, lastIndexOfAux_eq_none ys c h]
  | cons x xs ih =>
    intro i
    simp only [List.cons_append, lastIndexOfAux, List.append_eq, ih (i + 1)]
    simp only [List.length_cons, Option.some.injEq]
    omega

/-- lastIndexOf_append computes `lastIndexOf` on a string of the shape
`xs ++ c :: ys` with `c` absent from `ys`. -/
theorem lastIndexOf_append (xs ys : List Char) (c : Char) (h : c ∉ ys) :
    lastIndexOf (xs ++ c :: ys) c = (xs.length : Int) := by
  unfold lastIndexOf
  rw [lastIndexOfAux_append xs ys c h 0]
  simp

/-- allocIter_closed gives the closed form of `n ≤ 65536` consecutive
allocations from a fresh engine: rids `0 … n-1` are live (each with no
`ttl`) and `_nextRid` has advanced to `n`, wrapping to 0 at the end of the
space. -/
theorem allocIter_closed : ∀ n : Nat, n ≤ 65536 →
    allocIter n = ⟨fun k => if k < n then some ⟨r0c, cb0, none, true⟩ else none,
                   if n = 65536 then 0 else n⟩
  | 0, _ => by
    have h1 : (fun (_ : Nat) => (none : Option RidEntry)) =
        fun k => if k < 0 then some (⟨r0c, cb0, none, true⟩ : RidEntry) else none := by
      funext k
      simp
    simp [allocIter, ridInit, h1]
  | n + 1, h => by
    have ih := allocIter_closed n (by omega)
    have hne : ¬ (n = 65536) := by omega
    unfold allocIter
    rw [ih]
    simp only [hne, if_false]
    rw [genRid_of_not_live _ _ _ _ (by simp [ridLiveNow])]
    simp only [RidState.mk.injEq]
    constructor
    · funext k
      by_cases h1 : k = n
      · subst h1
        simp
      · by_cases h2 : k < n
        · have h3 : k < n + 1 := by omega
          simp [h1, h2, h3]
        · have h3 : ¬ (k < n + 1) := by omega
          simp [h1, h2, h3]
    · unfold bumpRid ridMax
      split_ifs <;> omega

/-- publish_emits_nil records that every normal return of `publish` carries
an empty emit list: the body contains no `emit` call. -/
theorem publish_emits_nil (vm : List Char → Option SignedVarV)
    (pvm : List Char → Option (List RinfoV)) (s : RidState)
    (sv : SignedVarV) (hasCb : Bool) (now : Nat) (o : PublishOutcome)
    (h : publish vm pvm s sv hasCb now = Except.ok o) : o.emits = [] := by
  rcases hp : pvm (toHex sv.publicKey) with _ | peers
  · simp only [publish, hp] at h
    simp only [Except.ok.injEq] at h
    rw [← h]
  · simp only [publish, hp] at h
    rcases hf : publishFanout peers s sv.signature now with e | ⟨pkts, errs, s2⟩
    · rw [hf] at h
      simp at h
    · rw [hf] at h
      simp only [Except.ok.injEq] at h
      rw [← h]

/-- C1: the claim says identifiers never collide with a live PendingRequest
and that a fully scanned space makes allocation fail with an
exhausted-identifier-space error.  The code violates both: after 65536
allocations with no interleaved resolution (starting from offset 0), rid 0
is still live in `_rids`, yet the 65537th `_genRid` succeeds and returns
rid 0 again — the guard on line 315 reads a `ttl` field no entry has, so it
never skips a live identifier and the throw on line 319 is unreachable. -/
theorem ridAllocationCollidesAfterWraparound :
    ((allocIter 65536).rids 0).isSome = true ∧
    (genRid (allocIter 65536) r0c cb0 0).toOption.map Prod.fst = some 0 := by
  have h0 : allocIter 65536 =
      ⟨fun k => if k < 65536 then some ⟨r0c, cb0, none, true⟩ else none, 0⟩ := by
    rw [allocIter_closed 65536 (le_refl _)]
    norm_num
  constructor
  · rw [h0]
    norm_num
  · rw [h0]
    rw [genRid_of_not_live _ _ _ _ (by norm_num [ridLiveNow])]
    rfl

/-- C2: every inbound datagram is dropped by the socket `message` handler:
resolving `self` throws a ReferenceError that the try/catch swallows, so
the handler returns without emitting or dispatching anything; and even
under a scope that did bind `self`, the `decode` method returns `undefined`
(its body has no `return`), which `_handleMessage` silently rejects — so no
inbound request or response is ever processed. -/
theorem inboundDatagramsNeverDispatched :
    ∀ (buf : List Nat) (rinfo : RinfoV),
      (socketMessageHandler buf rinfo).droppedByCatch = true ∧
      (socketMessageHandler buf rinfo).dispatched = none ∧
      (∀ scope : List String, (socketMessageHandlerIn scope buf rinfo).dispatched = none) := by
  intro buf rinfo
  refine ⟨rfl, rfl, ?_⟩
  intro scope
  unfold socketMessageHandlerIn
  by_cases hs : selfVarName ∈ scope
  · simp [hs, decodeMethod, handleMessage]
  · simp [hs]

/-- C3: the claim says the handler registry holds built-in GET and PUBLISH
handlers.  The registry built by the constructor maps only PING; an inbound
GET (type 2) or PUBLISH (type 3) request therefore takes the
unknown-request-type branch and is answered with
`[-1, rid, 'Unknown request type']` instead of the specified behavior. -/
theorem getAndPublishHandlersMissing :
    requestTypesMap 2 = none ∧ requestTypesMap 3 = none ∧
    requestTypesMap 1 = some RequestHandlerTag.ping ∧
    handleRequest 2 (JsVal.num 7) r0c =
      [([JsVal.num (-1), JsVal.num 7, JsVal.str unknownTypeMsg], r0c)] ∧
    handleRequest 3 (JsVal.num 8) r0c =
      [([JsVal.num (-1), JsVal.num 8, JsVal.str unknownTypeMsg], r0c)] := by
  refine ⟨by decide, by decide, by decide, by decide, by decide⟩

/-- C4: the claim says `lookup` issues a GET request to each candidate peer.
Line 90 calls `this.send([MSG_TYPE_GET, rid, publicKey])` with no
destination, so `send` sees `address = port = undefined`, `parseRinfo`
passes the `undefined` through, and the `rinfo.port` read on line 143
throws a TypeError: no GET ever reaches any peer. -/
theorem lookupSendLacksDestination :
    parseRinfo JsVal.undef JsVal.undef = JsVal.undef ∧
    (∀ payload : List JsVal,
      sendMethod payload JsVal.undef JsVal.undef = Except.error JsException.typeError) ∧
    lookupIterStep ridInit r0c (JsVal.str (("ab").toList)) 0 =
      Except.error JsException.typeError := by
  refine ⟨rfl, fun payload => rfl, ?_⟩
  unfold lookupIterStep
  rw [genRid_of_not_live ridInit r0c cb0 0 rfl]
  rfl

/-- C5: the claim says that with no narrowed peer set `publish` performs no
sends and fires the callback immediately with a null/absent count, and that
with a narrowed set it sends to exactly that set.  The code stores the
value and performs no sends, but `return this` on line 105 skips the
callback entirely — it is never invoked; and when a narrowed set does
exist, the destination-less `send` on line 116 throws a TypeError before
any PUBLISH reaches a peer. -/
theorem publishWithoutPeersSkipsCallback :
    publish (fun _ => none) (fun _ => none) ridInit
        ⟨[171], JsVal.str (("s").toList)⟩ true 0 =
      Except.ok ⟨fun k => if k = toHex [171] then some ⟨[171], JsVal.str (("s").toList)⟩ else none,
                 [], none, []⟩ ∧
    publish (fun _ => none) (fun k => if k = toHex [171] then some [r0c] else none)
        ridInit ⟨[171], JsVal.str (("s").toList)⟩ true 0 =
      Except.error JsException.typeError := by
  constructor
  · rfl
  · rfl

/-- C6: the claim says a listener registered via `onPublish(K, ...)` is
invoked whenever a value for K is accepted, in particular on a local
`publish` call.  The body of `publish` contains no `emit` at all (and no
inbound PUBLISH handler exists, see `requestTypesMap`), so no `publish`
call ever invokes any registered listener, whatever the state and
arguments. -/
theorem publishNeverInvokesListeners :
    ∀ (listeners : List (List Char × Nat)) (lid : Nat)
      (vm : List Char → Option SignedVarV) (pvm : List Char → Option (List RinfoV))
      (s : RidState) (sv : SignedVarV) (hasCb : Bool) (now : Nat),
      publishListenerInvocations (onPublish listeners sv.publicKey lid)
        vm pvm s sv hasCb now = [] := by
  intro listeners lid vm pvm s sv hasCb now
  unfold publishListenerInvocations
  rcases hp : publish vm pvm s sv hasCb now with e | o
  · rfl
  · simp [publish_emits_nil vm pvm s sv hasCb now o hp]

/-- C7 counterexample: the claim says `connect` surfaces failure (the
error) to the caller's callback.  Resolving the PING of a fresh engine with
a timeout error invokes the callback with a `null` error argument — line 52
passes a literal `null` — not with the error. -/
theorem connectErrorNotSurfacedToCallback :
    (connectRidCb [] r0c true (some (JsException.error (("TIMEOUT").toList))) []).userCb ≠
      some (some (JsException.error (("TIMEOUT").toList)), [], r0c) ∧
    (connectRidCb [] r0c true (some (JsException.error (("TIMEOUT").toList))) []).userCb =
      some (none, [], r0c) := by
  constructor
  · intro h
    simp [connectRidCb] at h
  · rfl

/-- C7 amended: `connect` sends a PING to the parsed endpoint; when the
response callback later runs, the peer is added to the registry on success
and ensured absent on error, and the caller's callback is always invoked —
but with a `null` error argument, so the failure itself is not surfaced
(it is observable only through the registry and the absent data). -/
theorem connectAlwaysCallsBackWithNullError
    (s : RidState) (addr : List Char) (port : Int) (now : Nat)
    (pm : List (List Char)) (err : Option JsException) (data : List JsVal) :
    (∀ pkt s1, connect s addr port now = Except.ok (pkt, s1) →
      pkt.destAddress = JsVal.str addr ∧ pkt.destPort = JsVal.num port ∧
      ∃ rid : Nat, pkt.payload = [JsVal.num 1, JsVal.num (rid : Int)]) ∧
    (connectRidCb pm ⟨JsVal.str addr, JsVal.num port⟩ true err data).userCb =
      some (none, data, ⟨JsVal.str addr, JsVal.num port⟩) ∧
    (connectRidCb pm ⟨JsVal.str addr, JsVal.num port⟩ true err data).peersMap =
      (if err.isSome then removePeer pm ⟨JsVal.str addr, JsVal.num port⟩
       else addPeer pm ⟨JsVal.str addr, JsVal.num port⟩) ∧
    (err = none →
      peersMapKey ⟨JsVal.str addr, JsVal.num port⟩ ∈
        (connectRidCb pm ⟨JsVal.str addr, JsVal.num port⟩ true err data).peersMap) ∧
    (err.isSome = true → pm.Nodup →
      peersMapKey ⟨JsVal.str addr, JsVal.num port⟩ ∉
        (connectRidCb pm ⟨JsVal.str addr, JsVal.num port⟩ true err data).peersMap) := by
  refine ⟨?_, rfl, rfl, ?_, ?_⟩
  · intro pkt s1 h
    unfold connect parseRinfo at h
    simp only [jsTypeofNumber, if_true] at h
    rcases hg : genRid s ⟨JsVal.str addr, JsVal.num port⟩ cb0 now with e | ⟨rid, s2⟩
    · rw [hg] at h
      simp at h
    · rw [hg] at h
      simp only [sendMethod, parseRinfo, Except.ok.injEq, Prod.mk.injEq] at h
      rw [← h.1]
      exact ⟨rfl, rfl, rid, rfl⟩
  · intro he
    subst he
    show peersMapKey _ ∈ addPeer pm _
    unfold addPeer
    by_cases hc : pm.contains (peersMapKey ⟨JsVal.str addr, JsVal.num port⟩)
    · rw [if_pos hc]
      simpa using hc
    · rw [if_neg hc]
      simp
  · intro he hnd
    rcases err with _ | e
    · simp at he
    · show peersMapKey _ ∉ removePeer pm _
      unfold removePeer
      by_cases hc : pm.contains (peersMapKey ⟨JsVal.str addr, JsVal.num port⟩)
      · rw [if_pos hc]
        intro hm
        rw [List.Nodup.mem_erase_iff hnd] at hm
        exact hm.1 rfl
      · rw [if_neg hc]
        simpa using hc

/-- C7 witness: instantiating the amended contract at a successful PING of
`127.0.0.1:4000` on a fresh engine. -/
theorem connectAlwaysCallsBackWithNullErrorWitness :
    (connectRidCb [] ⟨JsVal.str (("127.0.0.1").toList), JsVal.num 4000⟩ true none []).userCb =
      some (none, [], ⟨JsVal.str (("127.0.0.1").toList), JsVal.num 4000⟩) ∧
    peersMapKey ⟨JsVal.str (("127.0.0.1").toList), JsVal.num 4000⟩ ∈
      (connectRidCb [] ⟨JsVal.str (("127.0.0.1").toList), JsVal.num 4000⟩ true none []).peersMap := by
  have h := connectAlwaysCallsBackWithNullError ridInit (("127.0.0.1").toList) 4000 0 [] none []
  exact ⟨h.2.1, h.2.2.2.1 rfl⟩

/-- C8: resolving a response or error for a requestId with an origin that
differs from the peer recorded at allocation time never invokes the stored
callback and leaves the table untouched, and a resolve for a requestId with
no PendingRequest is likewise silently ignored. -/
theorem resolveIgnoresMismatchedOrigin
    (rids : Nat → Option RidEntry) (rid : Nat) (peerA peerB : RinfoV)
    (cb : Option JsException → List JsVal → Bool) (ttl : Option Nat) (ta : Bool)
    (err : Option JsException) (data : List JsVal)
    (hA : rids rid = some ⟨peerA, cb, ttl, ta⟩) (hne : peerA ≠ peerB) :
    getRidCallbackResolve rids rid peerB err data = ⟨rids, none, false⟩ ∧
    (∀ rids2 : Nat → Option RidEntry, rids2 rid = none →
      getRidCallbackResolve rids2 rid peerB err data = ⟨rids2, none, false⟩) := by
  constructor
  · unfold getRidCallbackResolve
    rw [hA]
    have hre : rinfoEqual peerA peerB = false := by
      cases hb : rinfoEqual peerA peerB with
      | false => rfl
      | true => exact absurd (rinfoEqual_imp_eq hb) hne
    simp [hre]
  · intro rids2 h2
    unfold getRidCallbackResolve
    rw [h2]

/-- C8 witness: a table holding rid 5 for peer a:1 ignores a resolve of
rid 5 arriving from peer b:1. -/
theorem resolveIgnoresMismatchedOriginWitness :
    getRidCallbackResolve
        (fun k => if k = 5 then
          some ⟨⟨JsVal.str (("a").toList), JsVal.num 1⟩, cb0, none, true⟩ else none)
        5 ⟨JsVal.str (("b").toList), JsVal.num 1⟩ none [] =
      ⟨(fun k => if k = 5 then
          some ⟨⟨JsVal.str (("a").toList), JsVal.num 1⟩, cb0, none, true⟩ else none),
       none, false⟩ := by
  exact (resolveIgnoresMismatchedOrigin _ 5 ⟨JsVal.str (("a").toList), JsVal.num 1⟩
    ⟨JsVal.str (("b").toList), JsVal.num 1⟩ cb0 none true none [] rfl (by decide)).1

/-- C9: delivering a no-error resolve whose callback returns the continue
sentinel (`=== true`) keeps the PendingRequest alive with its timer
untouched; any other return value, or any resolve carrying an error, clears
the timer and deletes the entry, after which further resolves of the same
requestId are no-ops. -/
theorem streamingContinueSentinelContract
    (rids : Nat → Option RidEntry) (rid : Nat) (obj : RidEntry) (rinfo : RinfoV)
    (err : Option JsException) (data : List JsVal)
    (h : rids rid = some obj) (hr : rinfoEqual obj.rinfo rinfo = true) :
    (obj.cb err data = true → err = none →
      getRidCallbackResolve rids rid rinfo err data = ⟨rids, some true, false⟩) ∧
    ((obj.cb err data = false ∨ err.isSome = true) →
      (getRidCallbackResolve rids rid rinfo err data).invoked = some (obj.cb err data) ∧
      (getRidCallbackResolve rids rid rinfo err data).timerCleared = true ∧
      (getRidCallbackResolve rids rid rinfo err data).rids rid = none ∧
      (∀ (r2 : RinfoV) (e2 : Option JsException) (d2 : List JsVal),
        getRidCallbackResolve ((getRidCallbackResolve rids rid rinfo err data).rids) rid r2 e2 d2 =
          ⟨(getRidCallbackResolve rids rid rinfo err data).rids, none, false⟩)) := by
  have hres : getRidCallbackResolve rids rid rinfo err data =
      (if obj.cb err data && err.isNone then
        (⟨rids, some (obj.cb err data), false⟩ : ResolveOutcome)
       else ⟨fun k => if k = rid then none else rids k, some (obj.cb err data), true⟩) := by
    unfold getRidCallbackResolve
    rw [h]
    simp [hr]
  constructor
  · intro hc he
    subst he
    rw [hres, hc]
    rfl
  · intro ht
    have hcond : (obj.cb err data && err.isNone) = false := by
      rcases ht with h1 | h1
      · simp [h1]
      · rcases err with _ | e
        · simp at h1
        · simp
    rw [hres, hcond]
    refine ⟨by simp, by simp, by simp, ?_⟩
    intro r2 e2 d2
    unfold getRidCallbackResolve
    simp

/-- C9 witness: a callback returning the continue sentinel on a no-error
resolve leaves the table and timer untouched. -/
theorem streamingContinueSentinelContractWitness :
    getRidCallbackResolve
        (fun k => if k = 5 then some ⟨r0c, (fun e _ => e.isNone), none, true⟩ else none)
        5 r0c none [] =
      ⟨(fun k => if k = 5 then some ⟨r0c, (fun e _ => e.isNone), none, true⟩ else none),
       some true, false⟩ := by
  exact (streamingContinueSentinelContract _ 5 ⟨r0c, (fun e _ => e.isNone), none, true⟩
    r0c none [] rfl (by decide)).1 rfl rfl

/-- C10: calling `connect` with a single `"address:port"` string (the
callback landing in the `port` parameter, which is not a number) makes
`parseRinfo` build a record with its fields swapped: `address` receives the
number parsed from the text after the last colon and `port` receives the
text before it (lines 335-339 return
`{address: parseInt(address.substr(i + 1), 10), port: address.substr(0, i)}`). -/
theorem parseRinfoSwapsAddressAndPort (host portText : List Char)
    (hp : ':' ∉ portText) :
    parseRinfo (JsVal.str (host ++ ':' :: portText)) JsVal.fn =
      JsVal.obj (jsParseInt portText) (JsVal.str host) := by
  have hi : lastIndexOf (host ++ ':' :: portText) ':' = (host.length : Int) :=
    lastIndexOf_append host portText ':' hp
  have h2 : jsSubstrFrom (host ++ ':' :: portText) ((host.length : Int) + 1) = portText := by
    unfold jsSubstrFrom
    have ht : ((host.length : Int) + 1).toNat = host.length + 1 := by omega
    rw [ht]
    rw [show host ++ ':' :: portText = (host ++ [':']) ++ portText by simp]
    rw [show host.length + 1 = (host ++ [':']).length by simp]
    exact List.drop_left _ _
  have h3 : jsSubstrTake (host ++ ':' :: portText) (host.length : Int) = host := by
    unfold jsSubstrTake
    have ht : ((host.length : Int)).toNat = host.length := by omega
    rw [ht]
    rw [show (':' :: portText) = [':'] ++ portText by simp]
    rw [← List.append_assoc]
    rw [show host.length = (host.take host.length).length by simp]
    rw [show (host ++ [':']) ++ portText = host ++ ([':'] ++ portText) by simp]
    simp
  unfold parseRinfo
  simp only [jsTypeofNumber, Bool.false_eq_true, if_false]
  rw [hi, h2, h3]

/-- C10 witness: `connect("10.0.0.1:8080", cb)` yields a record whose
`address` is the number 8080 and whose `port` is the string "10.0.0.1". -/
theorem parseRinfoSwapsAddressAndPortWitness :
    parseRinfo (JsVal.str (("10.0.0.1:8080").toList)) JsVal.fn =
      JsVal.obj (JsVal.num 8080) (JsVal.str (("10.0.0.1").toList)) := by
  have h := parseRinfoSwapsAddressAndPort (("10.0.0.1").toList) (("8080").toList) (by decide)
  have hs : ("10.0.0.1").toList ++ ':' :: ("8080").toList = ("10.0.0.1:8080").toList := by decide
  rw [hs] at h
  rw [h]
  decide

end SharedVarsModel
